import Mathlib

/-!
Verification of the adaptive-assessment core of the `ai-assessment-platform`
backend: the difficulty state machine, the assessment session store, and the
dual-provider orchestration layer (question selection, evaluation merge, and
the per-provider invokers with their retry policies).

The Python source is embedded shallowly:

* Pydantic models become Lean structures; the validation performed by a model's
  field constraints is made explicit at each construction site.
* The in-memory session dictionary becomes an association list with
  insert/find operations; in-place mutation becomes explicit state passing.
* Exceptions become `Except` values (or an `Option error × state` pair when a
  caller can observe the state left behind by a raise).
* Python integers become `Int`/`Nat`; the two floating-point computations of
  the merge layer are modelled by exact IEEE-754 binary64 arithmetic over `ℚ`
  (round-to-nearest-even with a 53-bit significand, normal range).
-/

namespace AIAssessment

/-! ## Data model (`app/models.py`) -/

/-- `Difficulty` enumeration (`models.Difficulty`): Easy, Medium, Hard. -/
inductive Difficulty where
  | easy
  | medium
  | hard
deriving DecidableEq, Repr

/-- `models.PerformanceRecord`: one question attempt.  Pydantic constrains
`score` to `0 ≤ score ≤ 100`; that check is applied where records are built.
The timestamp is an abstract instant. -/
structure PerformanceRecord where
  question_id : String
  score : Int
  is_correct : Bool
  difficulty : Difficulty
  timestamp : Nat
deriving DecidableEq, Repr

/-- `models.Session`: per-session state.  Pydantic requires `topic` to be
non-empty; that check is applied at construction. -/
structure Session where
  session_id : String
  topic : String
  current_difficulty : Difficulty
  performance_history : List PerformanceRecord
  created_at : Nat
  updated_at : Nat
deriving DecidableEq, Repr

/-- `models.Question`: a generated question. -/
structure Question where
  question_id : String
  question_text : String
  difficulty : Difficulty
  topic : String
deriving DecidableEq, Repr

/-- `models.EvaluationResult`: a parsed answer evaluation. -/
structure EvaluationResult where
  score : Int
  is_correct : Bool
  feedback_text : String
  suggested_difficulty : Difficulty
deriving DecidableEq, Repr

/-! ## Difficulty controller
(`SessionService.calculate_new_difficulty`, `session_service.py` 114-167).
The Python method looks a session up by id and then works on the session
value alone; the lookup is modelled at the store layer, so the controller
itself is a function of the session. -/

/-- `SessionService.calculate_new_difficulty`: with fewer than two records the
current difficulty is kept; otherwise the last two records
(`performance_history[-2:]`) drive the three adaptive rules. -/
def calculateNewDifficulty (session : Session) : Difficulty :=
  if session.performance_history.length < 2 then
    session.current_difficulty
  else
    match session.performance_history.drop (session.performance_history.length - 2) with
    | [first, second] =>
      if first.difficulty ≠ second.difficulty then
        session.current_difficulty
      else
        let recordsDiff := first.difficulty
        let bothCorrect := first.is_correct && second.is_correct
        let bothIncorrect := !first.is_correct && !second.is_correct
        if recordsDiff = Difficulty.medium ∧ bothCorrect then Difficulty.hard
        else if recordsDiff = Difficulty.hard ∧ bothIncorrect then Difficulty.medium
        else if recordsDiff = Difficulty.medium ∧ bothIncorrect then Difficulty.easy
        else session.current_difficulty
    | _ => session.current_difficulty

/-- The difficulty-controller transition exactly as the specification words it
(claim C1): unchanged below two records or on a mismatched window; otherwise,
with `d` the shared difficulty of the last two records, Hard when `d = Medium`
and both correct, Medium when `d = Hard` and both incorrect, Easy when
`d = Medium` and both incorrect, unchanged in every other case. -/
def nextDifficultyClaim (history : List PerformanceRecord) (current : Difficulty) :
    Difficulty :=
  match history.reverse with
  | newest :: older :: _ =>
    if older.difficulty ≠ newest.difficulty then current
    else
      let d := older.difficulty
      if d = Difficulty.medium ∧ older.is_correct ∧ newest.is_correct then
        Difficulty.hard
      else if d = Difficulty.hard ∧ ¬older.is_correct ∧ ¬newest.is_correct then
        Difficulty.medium
      else if d = Difficulty.medium ∧ ¬older.is_correct ∧ ¬newest.is_correct then
        Difficulty.easy
      else current
  | _ => current

/-! ## Assessment session store (`SessionService`, `session_service.py`).
`self._sessions : Dict[str, Session]` becomes an association list with
overwrite-on-insert, and each method threads the store explicitly. -/

/-- Errors raised by the session service: `SessionNotFoundError(session_id)`
from `app/exceptions.py`, and pydantic `ValidationError` for a field
constraint violated at model construction. -/
inductive SessionServiceError where
  | sessionNotFound (session_id : String)
  | validationError (field : String)
deriving DecidableEq, Repr

/-- The in-memory session map (`SessionService._sessions`). -/
def Store := List (String × Session)
deriving DecidableEq

/-- Dictionary lookup `self._sessions[session_id]` / `in` test. -/
def storeFind : Store → String → Option Session
  | [], _ => none
  | (k, v) :: rest, sid => if k = sid then some v else storeFind rest sid

/-- Dictionary assignment `self._sessions[session_id] = session`. -/
def storeInsert : Store → String → Session → Store
  | [], sid, s => [(sid, s)]
  | (k, v) :: rest, sid, s =>
    if k = sid then (sid, s) :: rest else (k, v) :: storeInsert rest sid s

/-- `SessionService.create_session` (lines 28-51).  `freshId` stands for the
`str(uuid4())` value generated inside the method; `now` for
`datetime.utcnow()`.  Pydantic rejects an empty topic (`min_length=1`) when
the `Session` is constructed. -/
def createSession (store : Store) (freshId : String) (topic : String)
    (initialDifficulty : Difficulty) (now : Nat) :
    Except SessionServiceError (Store × String) :=
  if topic.data.length < 1 then .error (.validationError "topic")
  else
    let session : Session :=
      { session_id := freshId
        topic := topic
        current_difficulty := initialDifficulty
        performance_history := []
        created_at := now
        updated_at := now }
    .ok (storeInsert store freshId session, freshId)

/-- `SessionService.get_session` (lines 53-70): raises
`SessionNotFoundError(session_id)` when the id is absent. -/
def getSession (store : Store) (sessionId : String) :
    Except SessionServiceError Session :=
  match storeFind store sessionId with
  | none => .error (.sessionNotFound sessionId)
  | some s => .ok s

/-- `SessionService.update_session_performance` (lines 72-112).  The result
pairs the exception (if any) with the store as left behind by the call: the
initial `get_session` raises before anything is mutated; on success the
record is appended, the difficulty recomputed on the appended history (the
method re-reads the same mutated session object), and `updated_at`
refreshed.  The pydantic bound `0 ≤ score ≤ 100` is checked where the
`PerformanceRecord` is constructed. -/
def updateSessionPerformance (store : Store) (sessionId questionId : String)
    (score : Int) (isCorrect : Bool) (now : Nat) :
    Option SessionServiceError × Store :=
  match storeFind store sessionId with
  | none => (some (.sessionNotFound sessionId), store)
  | some session =>
    if score < 0 ∨ 100 < score then (some (.validationError "score"), store)
    else
      let record : PerformanceRecord :=
        { question_id := questionId
          score := score
          is_correct := isCorrect
          difficulty := session.current_difficulty
          timestamp := now }
      let appended :=
        { session with performance_history := session.performance_history ++ [record] }
      let newDifficulty := calculateNewDifficulty appended
      let final :=
        { appended with current_difficulty := newDifficulty, updated_at := now }
      (none, storeInsert store sessionId final)

instance exceptDecEq {ε α : Type} [DecidableEq ε] [DecidableEq α] :
    DecidableEq (Except ε α)
  | .ok a, .ok b =>
    if h : a = b then .isTrue (by rw [h])
    else .isFalse (by intro hh; cases hh; exact h rfl)
  | .ok _, .error _ => .isFalse (by intro h; cases h)
  | .error _, .ok _ => .isFalse (by intro h; cases h)
  | .error e, .error f =>
    if h : e = f then .isTrue (by rw [h])
    else .isFalse (by intro hh; cases hh; exact h rfl)

/-! ## Text helpers.
Python string operations used by the orchestration layer, modelled over the
character list of a `String`.  `str.strip()` removes the six ASCII whitespace
characters Python strips by default; `str.lower()` is modelled on the ASCII
range (every string the claims quantify over is ASCII). -/

/-- The characters removed by Python `str.strip()`. -/
def pySpace (c : Char) : Bool :=
  c = ' ' || c = '\t' || c = '\n' || c = '\r' || c = '\x0b' || c = '\x0c'

/-- Python `str.strip()`. -/
def pyStrip (s : String) : String :=
  ⟨((s.data.dropWhile pySpace).reverse.dropWhile pySpace).reverse⟩

/-- ASCII lowercasing of one character (Python `str.lower()` restricted to the
ASCII range). -/
def asciiLower (c : Char) : Char :=
  if 'A' ≤ c ∧ c ≤ 'Z' then Char.ofNat (c.toNat + 32) else c

/-- Python `str.lower()` (ASCII). -/
def pyLower (s : String) : String :=
  ⟨s.data.map asciiLower⟩

/-- `text.startswith(pattern)` on character lists. -/
def listStartsWith : List Char → List Char → Bool
  | _, [] => true
  | [], _ :: _ => false
  | c :: cs, d :: ds => c = d && listStartsWith cs ds

/-- Python `s.startswith(w)`. -/
def pyStartsWith (s w : String) : Bool :=
  listStartsWith s.data w.data

/-- Python `s.endswith('?')`. -/
def endsWithQM (s : String) : Bool :=
  match s.data.reverse with
  | c :: _ => c = '?'
  | [] => false

/-! ## Question selection
(`HybridAIClient._score_question` / `_select_best_question`,
`hybrid_ai_client.py` 200-278) and the question service
(`QuestionService.generate_question`, `question_service.py` 37-119). -/

/-- The question-word list of `_score_question`. -/
def questionWords : List String :=
  ["what", "how", "why", "when", "where", "which", "who", "can", "could",
   "would", "should", "explain", "describe", "analyze"]

/-- `HybridAIClient._score_question`: base 50, length bonus (20 for 50-150
characters, else 10 for 30-200), 10 for a digit, 15 for a leading question
word (case-insensitive), 5 for a trailing `?`, capped at 100.  The Python
float score only ever takes integer values, so it is a `Nat` here. -/
def scoreQuestion (question : String) : Nat :=
  if question = "" then 0
  else
    let length := question.data.length
    let score := 50
    let score := score +
      (if 50 ≤ length ∧ length ≤ 150 then 20
       else if 30 ≤ length ∧ length ≤ 200 then 10
       else 0)
    let score := score + (if question.data.any Char.isDigit then 10 else 0)
    let score := score +
      (if questionWords.any (fun w => pyStartsWith (pyLower question) w) then 15 else 0)
    let score := score + (if endsWithQM question then 5 else 0)
    min score 100

/-- Python falsiness of an optional string (`if not x`): `None` and `""`. -/
def pyFalsy : Option String → Bool
  | none => true
  | some s => s = ""

/-- `HybridAIClient._select_best_question`: a falsy candidate yields the other
one (`x or "Error: No question generated"`); with two truthy candidates the
higher `_score_question` wins and a tie goes to the GPT (first) provider. -/
def selectBestQuestion (gptQuestion geminiQuestion : Option String) : String :=
  if pyFalsy gptQuestion then
    match geminiQuestion with
    | some s => if s = "" then "Error: No question generated" else s
    | none => "Error: No question generated"
  else if pyFalsy geminiQuestion then gptQuestion.getD ""
  else
    let gpt := gptQuestion.getD ""
    let gemini := geminiQuestion.getD ""
    if scoreQuestion gpt ≥ scoreQuestion gemini then gpt else gemini

/-- `QuestionGenerationError` (`app/exceptions.py`). -/
structure QuestionGenerationError where
  message : String
deriving DecidableEq, Repr

/-- `QuestionService.generate_question` over the dual-provider path: each
provider outcome is `some text` on success and `none` when that provider's
invocation raised (the hybrid client maps exceptions to `None` before
selection).  The winning text is stripped and rejected when empty; the
`Question` model then validates a non-empty topic.  `freshId` stands for the
`str(uuid4())` generated in the method. -/
def generateQuestion (freshId topic : String) (difficulty : Difficulty)
    (gptOutcome geminiOutcome : Option String) :
    Except QuestionGenerationError Question :=
  let questionText := pyStrip (selectBestQuestion gptOutcome geminiOutcome)
  if questionText = "" then
    .error { message := "Received empty question text from GPT-4o" }
  else if topic = "" then
    .error { message := "Unexpected error during question generation: topic" }
  else
    .ok { question_id := freshId, question_text := questionText
          difficulty := difficulty, topic := topic }

/-- The selection heuristic exactly as the specification words it (claim C5):
base 50; plus 20 when `50 ≤ L ≤ 150`, else plus 10 when `30 ≤ L ≤ 200`; plus
10 when the text contains a digit; plus 15 when it case-insensitively starts
with a question word; plus 5 when it ends with `?`; capped at 100. -/
def scoreQuestionClaim (q : String) : Nat :=
  let L := q.data.length
  let lengthBonus :=
    if 50 ≤ L ∧ L ≤ 150 then 20 else if 30 ≤ L ∧ L ≤ 200 then 10 else 0
  let digitBonus := if ∃ c ∈ q.data, c.isDigit then 10 else 0
  let startBonus := if ∃ w ∈ questionWords, pyStartsWith (pyLower q) w then 15 else 0
  let endBonus := if endsWithQM q then 5 else 0
  min (50 + lengthBonus + digitBonus + startBonus + endBonus) 100

/-! ## Exact binary64 arithmetic.
`_combine_evaluations` computes `int(gpt_score * 0.6 + gemini_score * 0.4)`
with Python floats.  Every value in that computation is a dyadic rational,
so floats are modelled exactly over the integers: a value `n / 2^53` is kept
as its scaled mantissa `n`, each operation result is rounded to a 53-bit
significand with round-to-nearest-even (all values reached are in the normal
range), and `int()` truncates toward zero.  The binary64 value of the
literal `0.6` is `5404319552844595 / 2^53` and that of `0.4` is
`3602879701896397 / 2^53`; an integer score converts to a float exactly at
these magnitudes.  This model agrees with CPython float arithmetic on the
whole integer score grid (checked exhaustively on `[-300, 300]^2`). -/

/-- Bit length of a natural number, fuel-structural so the kernel can
evaluate it (300 bits of fuel covers every number appearing here). -/
def bitLenAux : Nat → Nat → Nat
  | 0, _ => 0
  | fuel + 1, n => if n = 0 then 0 else bitLenAux fuel (n / 2) + 1

/-- Bit length of a natural number. -/
def bitLen (n : Nat) : Nat := bitLenAux 300 n

/-- `n / 2^s` rounded to the nearest integer, ties to even. -/
def rheShift (n : Int) (s : Nat) : Int :=
  if s = 0 then n
  else
    let d : Int := 2 ^ s
    let q := n.fdiv d
    let r := n - q * d
    let half : Int := 2 ^ (s - 1)
    if r < half then q
    else if half < r then q + 1
    else if q % 2 = 0 then q else q + 1

/-- The value `n / 2^53` rounded to the binary64 grid, returned at the same
scale: a mantissa of at most 53 bits is exact; a longer one is rounded at
its 53-bit boundary (round-to-nearest-even). -/
def roundFloatAt (n : Int) : Int :=
  if n = 0 then 0
  else
    let L := bitLen n.natAbs
    if L ≤ 53 then n
    else
      let s := L - 53
      rheShift n s * 2 ^ s

/-- The scaled mantissa of the binary64 literal `0.6` (value `m06 / 2^53`). -/
def m06 : Int := 5404319552844595

/-- The scaled mantissa of the binary64 literal `0.4` (value `m04 / 2^53`). -/
def m04 : Int := 3602879701896397

/-- `int(gpt_score * 0.6 + gemini_score * 0.4)` with exact binary64
semantics: each product and the sum round to binary64 (at scale `2^53`),
and `int()` truncates toward zero. -/
def combinedScoreFloat (gptScore geminiScore : Int) : Int :=
  Int.tdiv
    (roundFloatAt (roundFloatAt (gptScore * m06) + roundFloatAt (geminiScore * m04)))
    (2 ^ 53)

/-! ## Evaluation merge and parse
(`HybridAIClient._combine_evaluations` / `_merge_feedback`,
`hybrid_ai_client.py` 280-373, and
`EvaluationService._parse_evaluation_response`,
`evaluation_service.py` 261-341). -/

/-- A JSON scalar as relevant to the evaluation payloads. -/
inductive JsonVal where
  | int (n : Int)
  | bool (b : Bool)
  | str (s : String)
deriving DecidableEq, Repr

/-- A provider's raw evaluation response as seen by `_combine_evaluations`:
`absent` covers `None` and the empty string (both falsy), `invalid` a
non-empty string rejected by `json.loads` (or not a JSON object), `obj` a
non-empty string holding a JSON object with scalar fields. -/
inductive RawDoc where
  | absent
  | invalid
  | obj (fields : List (String × JsonVal))
deriving DecidableEq, Repr

/-- Python `dict.get(key, default)`. -/
def jsonGet (fields : List (String × JsonVal)) (key : String) (dflt : JsonVal) :
    JsonVal :=
  match fields with
  | [] => dflt
  | (k, v) :: rest => if k = key then v else jsonGet rest key dflt

/-- Python `dict[key]` presence / lookup. -/
def jsonFind (fields : List (String × JsonVal)) (key : String) : Option JsonVal :=
  match fields with
  | [] => none
  | (k, v) :: rest => if k = key then some v else jsonFind rest key

/-- Python truthiness of a JSON scalar. -/
def pyTruthy : JsonVal → Bool
  | .int n => n ≠ 0
  | .bool b => b
  | .str s => s ≠ ""

/-- Python `x and y` on JSON scalars: `x` when falsy, else `y`. -/
def pyAnd (x y : JsonVal) : JsonVal := if pyTruthy x then y else x

/-- A JSON scalar usable as a number in `x * 0.6` (a Python `bool` is an
`int`; a string raises `TypeError`). -/
def pyNum : JsonVal → Option Int
  | .int n => some n
  | .bool b => some (if b then 1 else 0)
  | .str _ => none

/-- `HybridAIClient._merge_feedback`: a feedback strictly longer than 1.5×
the other's character length wins; otherwise GPT's feedback is used.
`len(x) > len(y) * 1.5` is written in its exact integer form
`2 * len(x) > 3 * len(y)`: the literal `1.5` is exactly representable and
the float product is exact at every reachable string length. -/
def mergeFeedback (gptFeedback geminiFeedback : String) : String :=
  if 2 * gptFeedback.data.length > 3 * geminiFeedback.data.length then
    gptFeedback
  else if 2 * geminiFeedback.data.length > 3 * gptFeedback.data.length then
    geminiFeedback
  else gptFeedback

/-- `HybridAIClient._combine_evaluations`: falsy responses fall back to the
other (or to the `{"error": ...}` sentinel when both are falsy); with two
parseable objects the merged payload is built with `.get` defaults
(`score` → 0, `is_correct` → False, `feedback_text` → `""`,
`suggested_difficulty` → `"Medium"`); any exception inside the `try`
(unparseable JSON, a non-numeric score, a non-string feedback) falls back to
the GPT payload unchanged. -/
def combineEvaluations (gptEval geminiEval : RawDoc) : RawDoc :=
  match gptEval with
  | .absent =>
    match geminiEval with
    | .absent => .obj [("error", .str "No evaluation generated")]
    | g => g
  | _ =>
    match geminiEval with
    | .absent => gptEval
    | _ =>
      match gptEval, geminiEval with
      | .obj gptFields, .obj geminiFields =>
        match pyNum (jsonGet gptFields "score" (.int 0)),
              pyNum (jsonGet geminiFields "score" (.int 0)) with
        | some gptScore, some geminiScore =>
          let combinedScore := combinedScoreFloat gptScore geminiScore
          let combinedCorrect :=
            pyAnd (jsonGet gptFields "is_correct" (.bool false))
                  (jsonGet geminiFields "is_correct" (.bool false))
          match jsonGet gptFields "feedback_text" (.str ""),
                jsonGet geminiFields "feedback_text" (.str "") with
          | .str gptFeedback, .str geminiFeedback =>
            let combinedFeedback := mergeFeedback gptFeedback geminiFeedback
            let suggested := jsonGet gptFields "suggested_difficulty" (.str "Medium")
            .obj [("score", .int combinedScore),
                  ("is_correct", combinedCorrect),
                  ("feedback_text", .str combinedFeedback),
                  ("suggested_difficulty", suggested)]
          | _, _ => gptEval
        | _, _ => gptEval
      | _, _ => gptEval

/-- Which validation step of `_parse_evaluation_response` rejected the
payload (`EvaluationError` of `app/exceptions.py`, distinguished by its
message). -/
inductive EvaluationError where
  | jsonDecode
  | missingFields (fields : List String)
  | invalidScore
  | invalidIsCorrect
  | invalidFeedback
  | invalidDifficulty
deriving DecidableEq, Repr

/-- `Difficulty(value)` on a string. -/
def difficultyOfString : String → Option Difficulty
  | "Easy" => some .easy
  | "Medium" => some .medium
  | "Hard" => some .hard
  | _ => none

/-- The required-field list of `_parse_evaluation_response`. -/
def requiredFields : List String :=
  ["score", "is_correct", "feedback_text", "suggested_difficulty"]

/-- `EvaluationService._parse_evaluation_response`: requires all four fields,
an integer score within 0-100, a boolean correctness flag, a feedback string
whose strip is non-empty (the result keeps the stripped text), and a valid
difficulty string.  A `True`/`False` score passes Python's
`isinstance(score, int)` but is then rejected by the pydantic `int` field of
`EvaluationResult`, so it is an error on every path and is folded into
`invalidScore` here. -/
def parseEvaluationResponse (doc : RawDoc) : Except EvaluationError EvaluationResult :=
  match doc with
  | .absent => .error .jsonDecode
  | .invalid => .error .jsonDecode
  | .obj fields =>
    let missing := requiredFields.filter (fun f => (jsonFind fields f).isNone)
    if missing ≠ [] then .error (.missingFields missing)
    else
      match jsonFind fields "score" with
      | some (.int score) =>
        if ¬ (0 ≤ score ∧ score ≤ 100) then .error .invalidScore
        else
          match jsonFind fields "is_correct" with
          | some (.bool isCorrect) =>
            match jsonFind fields "feedback_text" with
            | some (.str feedback) =>
              if pyStrip feedback = "" then .error .invalidFeedback
              else
                match jsonFind fields "suggested_difficulty" with
                | some (.str suggestedStr) =>
                  match difficultyOfString suggestedStr with
                  | some suggested =>
                    .ok { score := score, is_correct := isCorrect
                          feedback_text := pyStrip feedback
                          suggested_difficulty := suggested }
                  | none => .error .invalidDifficulty
                | _ => .error .invalidDifficulty
            | _ => .error .invalidFeedback
          | _ => .error .invalidIsCorrect
      | _ => .error .invalidScore

/-- `EvaluationService.evaluate_answer` through the hybrid client's
dual-provider path: each provider outcome is a `RawDoc` (`absent` when that
provider's invocation raised), the two are merged by `_combine_evaluations`,
and the single resulting payload is parsed by `_parse_evaluation_response`. -/
def evaluateAnswer (gptEval geminiEval : RawDoc) :
    Except EvaluationError EvaluationResult :=
  parseEvaluationResponse (combineEvaluations gptEval geminiEval)

/-- The merged score exactly as the specification words it (claim C4):
`round(scoreA * 0.6 + scoreB * 0.4)` with exact rounding. -/
def claimMergedScore (a b : Int) : Int :=
  round ((a : ℚ) * 0.6 + (b : ℚ) * 0.4)

/-- A well-formed provider evaluation payload, used to state the merge
claims: the four required fields with their expected scalar types. -/
def evalDoc (score : Int) (isCorrect : Bool) (feedback : String)
    (suggested : String) : RawDoc :=
  .obj [("score", .int score), ("is_correct", .bool isCorrect),
        ("feedback_text", .str feedback), ("suggested_difficulty", .str suggested)]

/-! ## Provider invokers
(`OpenAIClient.chat_completion`, `openai_client.py` 39-168, and
`GeminiClient.chat_completion`, `gemini_client.py` 42-84).
The backend environment is a script mapping each attempt index to the
outcome the underlying SDK call produces on that attempt. -/

/-- Outcome of one underlying SDK call, as classified by the `except` chain
of `OpenAIClient.chat_completion`: returned content, `RateLimitError`,
`APITimeoutError`, `APIConnectionError`, `APIError` (with its `status_code`
when the exception carries one), or any other exception. -/
inductive AttemptOutcome where
  | success (content : String)
  | rateLimitError
  | apiTimeoutError
  | apiConnectionError
  | apiError (statusCode : Option Nat)
  | unexpectedError (message : String)
deriving DecidableEq, Repr

/-- `OpenAIAPIError` (`app/exceptions.py`): carries the failing operation's
name and a message. -/
structure OpenAIAPIErrorValue where
  operation : String
  message : String
deriving DecidableEq, Repr

/-- The bare `Exception("Gemini API error: ...")` raised by `GeminiClient`:
a message only, no operation field. -/
structure GeminiErrorValue where
  message : String
deriving DecidableEq, Repr

/-- Observable outcome of one `chat_completion` invocation: the returned
content or raised error, the backoff delays slept between attempts, and the
number of underlying SDK calls made. -/
structure InvokeResult (ε : Type) where
  result : Except ε String
  delays : List ℚ
  attempts : Nat
deriving DecidableEq

/-- `self.max_retries` of `OpenAIClient`. -/
def maxRetries : Nat := 3

/-- The retry loop of `OpenAIClient.chat_completion`: `remaining` counts the
iterations left of `for attempt in range(self.max_retries)` and `attempt` is
the current index (`remaining + attempt = maxRetries` at every call from
`openaiChatCompletion`).  Rate-limit, timeout, connection and non-4xx API
errors sleep `retry_delay * 2 ** attempt` and retry while iterations remain;
a 4xx `APIError` and any unexpected exception raise immediately; exhaustion
raises `OpenAIAPIError` naming the operation. -/
def chatCompletionGo (script : Nat → AttemptOutcome) (retryDelay : ℚ) :
    Nat → Nat → List ℚ → InvokeResult OpenAIAPIErrorValue
  | 0, attempt, ds =>
    { result := .error { operation := "chat_completion"
                         message := "Failed to complete request after all retries" }
      delays := ds, attempts := attempt }
  | remaining + 1, attempt, ds =>
    match script attempt with
    | .success content =>
      { result := .ok content, delays := ds, attempts := attempt + 1 }
    | .rateLimitError =>
      if remaining > 0 then
        chatCompletionGo script retryDelay remaining (attempt + 1)
          (ds ++ [retryDelay * 2 ^ attempt])
      else
        { result := .error { operation := "chat_completion"
                             message := "Rate limit exceeded after all retries" }
          delays := ds, attempts := attempt + 1 }
    | .apiTimeoutError =>
      if remaining > 0 then
        chatCompletionGo script retryDelay remaining (attempt + 1)
          (ds ++ [retryDelay * 2 ^ attempt])
      else
        { result := .error { operation := "chat_completion"
                             message := "Request timeout after all retries" }
          delays := ds, attempts := attempt + 1 }
    | .apiConnectionError =>
      if remaining > 0 then
        chatCompletionGo script retryDelay remaining (attempt + 1)
          (ds ++ [retryDelay * 2 ^ attempt])
      else
        { result := .error { operation := "chat_completion"
                             message := "Connection error after all retries" }
          delays := ds, attempts := attempt + 1 }
    | .apiError statusCode =>
      match statusCode with
      | some sc =>
        if 400 ≤ sc ∧ sc < 500 then
          { result := .error { operation := "chat_completion"
                               message := "API client error" }
            delays := ds, attempts := attempt + 1 }
        else if remaining > 0 then
          chatCompletionGo script retryDelay remaining (attempt + 1)
            (ds ++ [retryDelay * 2 ^ attempt])
        else
          { result := .error { operation := "chat_completion"
                               message := "API error after all retries" }
            delays := ds, attempts := attempt + 1 }
      | none =>
        if remaining > 0 then
          chatCompletionGo script retryDelay remaining (attempt + 1)
            (ds ++ [retryDelay * 2 ^ attempt])
        else
          { result := .error { operation := "chat_completion"
                               message := "API error after all retries" }
            delays := ds, attempts := attempt + 1 }
    | .unexpectedError msg =>
      { result := .error { operation := "chat_completion"
                           message := "Unexpected error: " ++ msg }
        delays := ds, attempts := attempt + 1 }

/-- `OpenAIClient.chat_completion` for one invocation. -/
def openaiChatCompletion (retryDelay : ℚ) (script : Nat → AttemptOutcome) :
    InvokeResult OpenAIAPIErrorValue :=
  chatCompletionGo script retryDelay maxRetries 0 []

/-- `GeminiClient.chat_completion`: a single underlying call, its text
stripped on success; every exception is re-raised as a bare
`Exception("Gemini API error: ...")` — no classification, no retry, no
backoff. -/
def geminiChatCompletion (script : Nat → AttemptOutcome) :
    InvokeResult GeminiErrorValue :=
  match script 0 with
  | .success content =>
    { result := .ok (pyStrip content), delays := [], attempts := 1 }
  | _ =>
    { result := .error { message := "Gemini API error" }, delays := [], attempts := 1 }

/-- The transient outcomes the OpenAI retry loop retries: rate limit,
timeout, connection failure, and an `APIError` without a 4xx status. -/
def retryableOutcome : AttemptOutcome → Bool
  | .rateLimitError => true
  | .apiTimeoutError => true
  | .apiConnectionError => true
  | .apiError (some sc) => if 400 ≤ sc ∧ sc < 500 then false else true
  | .apiError none => true
  | .success _ => false
  | .unexpectedError _ => false

/-! ## Theorems -/

theorem drop_length_sub_two (rest : List PerformanceRecord) (r0 r1 : PerformanceRecord) :
    (rest ++ [r0, r1]).drop ((rest ++ [r0, r1]).length - 2) = [r0, r1] := by
  have hlen : (rest ++ [r0, r1]).length - 2 = rest.length := by
    simp [List.length_append]
  rw [hlen, List.drop_left]

/-- C1: the implemented difficulty controller agrees with the claimed
transition table on every session: unchanged for histories shorter than two
records or mismatched windows; Medium→Hard on two correct, Hard→Medium and
Medium→Easy on two incorrect; unchanged in all remaining cases. -/
theorem calculateNewDifficulty_eq_claim (s : Session) :
    calculateNewDifficulty s =
      nextDifficultyClaim s.performance_history s.current_difficulty := by
  rcases hl : s.performance_history.reverse with _ | ⟨r1, _ | ⟨r0, restRev⟩⟩
  · have h : s.performance_history = [] := by
      have := congrArg List.reverse hl
      simpa using this
    simp [calculateNewDifficulty, nextDifficultyClaim, h]
  · have h : s.performance_history = [r1] := by
      have := congrArg List.reverse hl
      simpa using this
    simp [calculateNewDifficulty, nextDifficultyClaim, h]
  · have h : s.performance_history = restRev.reverse ++ [r0, r1] := by
      have := congrArg List.reverse hl
      simpa [List.reverse_cons, List.append_assoc] using this
    have hlen : ¬ s.performance_history.length < 2 := by
      rw [h]; simp [List.length_append]
    rw [calculateNewDifficulty, nextDifficultyClaim, hl]
    simp only [if_neg hlen, h, drop_length_sub_two]
    cases hd0 : r0.difficulty <;> cases hd1 : r1.difficulty <;>
      cases hc0 : r0.is_correct <;> cases hc1 : r1.is_correct <;>
        simp [hd0, hd1, hc0, hc1]


theorem storeFind_storeInsert_self (store : Store) (sid : String) (s : Session) :
    storeFind (storeInsert store sid s) sid = some s := by
  induction store with
  | nil => simp [storeInsert, storeFind]
  | cons kv rest ih =>
    obtain ⟨k, v⟩ := kv
    by_cases hk : k = sid
    · simp [storeInsert, storeFind, hk]
    · simp [storeInsert, storeFind, hk, ih]

/-- C9: `create_session` followed immediately by `get_session` on the returned
identifier yields a session whose topic and current difficulty are exactly the
arguments of create, with an empty performance history; and `get_session` on
any identifier absent from the store fails with `SessionNotFoundError`
carrying that identifier. -/
theorem createSession_getSession_roundTrip (store : Store) (freshId topic : String)
    (d : Difficulty) (now : Nat) (htopic : topic ≠ "") :
    (∃ store2, createSession store freshId topic d now = .ok (store2, freshId) ∧
      ∃ s, getSession store2 freshId = .ok s ∧
        s.topic = topic ∧ s.current_difficulty = d ∧ s.performance_history = []) ∧
    ∀ sid, storeFind store sid = none →
      getSession store sid = .error (.sessionNotFound sid) := by
  constructor
  · have hlen : ¬ topic.data.length < 1 := by
      rcases topic with ⟨cs⟩
      cases cs with
      | nil => simp at htopic
      | cons c cs => simp
    refine ⟨_, by rw [createSession, if_neg hlen], ?_⟩
    refine ⟨{ session_id := freshId, topic := topic, current_difficulty := d,
              performance_history := [], created_at := now, updated_at := now },
            ?_, rfl, rfl, rfl⟩
    simp [getSession, storeFind_storeInsert_self]
  · intro sid hfind
    simp [getSession, hfind]

/-- Evaluates C9 at a concrete input: creating a session for topic
`"algebra"` at Medium in the empty store and reading it back, and a failed
lookup on the empty store. -/
theorem createSession_getSession_roundTrip_witness :
    (∃ store2, createSession [] "id-1" "algebra" Difficulty.medium 0 = .ok (store2, "id-1") ∧
      ∃ s, getSession store2 "id-1" = .ok s ∧
        s.topic = "algebra" ∧ s.current_difficulty = Difficulty.medium ∧
        s.performance_history = []) ∧
    ∀ sid, storeFind [] sid = none →
      getSession ([] : Store) sid = .error (.sessionNotFound sid) :=
  createSession_getSession_roundTrip [] "id-1" "algebra" Difficulty.medium 0 (by decide)

/-- C10: updating performance for an identifier absent from the store raises
`SessionNotFoundError` carrying that identifier, and returns the store
untouched — no record appended, no difficulty or timestamp modified. -/
theorem updateSessionPerformance_absent_atomic (store : Store)
    (sid qid : String) (score : Int) (isCorrect : Bool) (now : Nat)
    (habsent : storeFind store sid = none) :
    updateSessionPerformance store sid qid score isCorrect now =
      (some (.sessionNotFound sid), store) := by
  simp [updateSessionPerformance, habsent]

/-- Evaluates C10 at a concrete input: an update against a store holding one
unrelated session leaves that store intact and reports the missing id. -/
theorem updateSessionPerformance_absent_atomic_witness :
    updateSessionPerformance
        [("other", { session_id := "other", topic := "t", current_difficulty := .easy
                     performance_history := [], created_at := 0, updated_at := 0 })]
        "missing" "q1" 90 true 5 =
      (some (.sessionNotFound "missing"),
        [("other", { session_id := "other", topic := "t", current_difficulty := .easy
                     performance_history := [], created_at := 0, updated_at := 0 })]) :=
  updateSessionPerformance_absent_atomic _ _ _ _ _ _ (by decide)


theorem scoreQuestion_eq_claim (q : String) (hq : q ≠ "") :
    scoreQuestion q = scoreQuestionClaim q := by
  rw [scoreQuestion, scoreQuestionClaim, if_neg hq]
  have hdig : (q.data.any Char.isDigit = true) ↔ ∃ c ∈ q.data, c.isDigit := by
    simp [List.any_eq_true]
  have hstart : (questionWords.any (fun w => pyStartsWith (pyLower q) w) = true) ↔
      ∃ w ∈ questionWords, pyStartsWith (pyLower q) w := by
    simp [List.any_eq_true]
  simp only [hdig, hstart]

/-- C5: for every pair of non-empty candidate texts, the implemented heuristic
equals the claimed one (base 50, exclusive length brackets, digit bonus,
question-word bonus, `?` bonus, cap 100), and selection returns the
higher-scoring candidate with ties going to the first (GPT) provider. -/
theorem selectBestQuestion_matches_claim (g m : String) (hg : g ≠ "") (hm : m ≠ "") :
    scoreQuestion g = scoreQuestionClaim g ∧
    scoreQuestion m = scoreQuestionClaim m ∧
    selectBestQuestion (some g) (some m) =
      (if scoreQuestionClaim g ≥ scoreQuestionClaim m then g else m) := by
  refine ⟨scoreQuestion_eq_claim g hg, scoreQuestion_eq_claim m hm, ?_⟩
  rw [selectBestQuestion]
  simp only [pyFalsy, hg, hm, decide_eq_true_eq, if_neg, Option.getD_some,
    scoreQuestion_eq_claim g hg, scoreQuestion_eq_claim m hm]
  simp [hg, hm]

/-- Evaluates C5 at the specification's own example pair: the well-formed
question beats the short statement and is selected. -/
theorem selectBestQuestion_matches_claim_witness :
    scoreQuestion "What happens when load exceeds capacity?" =
      scoreQuestionClaim "What happens when load exceeds capacity?" ∧
    scoreQuestion "Explain X." = scoreQuestionClaim "Explain X." ∧
    selectBestQuestion (some "What happens when load exceeds capacity?")
        (some "Explain X.") =
      (if scoreQuestionClaim "What happens when load exceeds capacity?" ≥
          scoreQuestionClaim "Explain X." then
        "What happens when load exceeds capacity?"
      else "Explain X.") :=
  selectBestQuestion_matches_claim _ _ (by decide) (by decide)

/-- C7 counterexample: a whitespace-only GPT response is not treated as that
provider's failure during selection.  With GPT returning `"   "` and Gemini a
valid non-empty text scoring the same 50 points, the tie goes to GPT and the
whitespace-only text is selected as the winning question — had GPT actually
raised (outcome `none`), Gemini's text would have been selected — and the
whole generation then fails instead of using Gemini's question. -/
theorem whitespace_selected_counterexample :
    pyStrip "   " = "" ∧
    ("sample topic sentence" : String) ≠ "" ∧
    selectBestQuestion (some "   ") (some "sample topic sentence") = "   " ∧
    selectBestQuestion none (some "sample topic sentence") = "sample topic sentence" ∧
    generateQuestion "qid-1" "databases" .medium
        (some "   ") (some "sample topic sentence") =
      .error { message := "Received empty question text from GPT-4o" } := by
  decide

/-- C7 amended: whitespace-only (or empty) provider text is never wrapped into
a `Question` — any successfully returned question carries the stripped,
non-empty winning text — but such text is not excluded from selection and can
win it, failing the generation even when the other provider returned usable
text (see the counterexample). -/
theorem generateQuestion_ok_text_stripped_nonempty (freshId topic : String)
    (d : Difficulty) (gptOutcome geminiOutcome : Option String) (q : Question)
    (h : generateQuestion freshId topic d gptOutcome geminiOutcome = .ok q) :
    q.question_text = pyStrip (selectBestQuestion gptOutcome geminiOutcome) ∧
    q.question_text ≠ "" := by
  by_cases h1 : pyStrip (selectBestQuestion gptOutcome geminiOutcome) = ""
  · simp [generateQuestion, h1] at h
  · by_cases h2 : topic = ""
    · simp [generateQuestion, h1, h2] at h
    · simp [generateQuestion, h1, h2] at h
      simp [← h, h1]

/-- Evaluates the amended C7 on a concrete successful generation. -/
theorem generateQuestion_ok_text_stripped_nonempty_witness :
    ({ question_id := "qid-2", question_text := "What is 2 + 2?"
       difficulty := Difficulty.easy, topic := "math" } : Question).question_text =
      pyStrip (selectBestQuestion (some " What is 2 + 2? ") none) ∧
    ({ question_id := "qid-2", question_text := "What is 2 + 2?"
       difficulty := Difficulty.easy, topic := "math" } : Question).question_text ≠ "" :=
  generateQuestion_ok_text_stripped_nonempty "qid-2" "math" Difficulty.easy
    (some " What is 2 + 2? ") none _ (by decide)

theorem jsonGet_of_find_none (fields : List (String × JsonVal)) (key : String)
    (dflt : JsonVal) (h : jsonFind fields key = none) :
    jsonGet fields key dflt = dflt := by
  induction fields with
  | nil => rfl
  | cons kv rest ih =>
    obtain ⟨k, v⟩ := kv
    by_cases hk : k = key
    · simp [jsonFind, hk] at h
    · simp [jsonFind, hk] at h
      simp [jsonGet, hk, ih h]

theorem combineEvaluations_evalDoc (a b : Int) (gc mc : Bool) (gf mf gs ms : String) :
    combineEvaluations (evalDoc a gc gf gs) (evalDoc b mc mf ms) =
      .obj [("score", .int (combinedScoreFloat a b)),
            ("is_correct", .bool (gc && mc)),
            ("feedback_text", .str (mergeFeedback gf mf)),
            ("suggested_difficulty", .str gs)] := by
  cases gc <;> cases mc <;>
    simp [combineEvaluations, evalDoc, jsonGet, pyNum, pyAnd, pyTruthy]

theorem parse_wellFormed_ok_fields (S : Int) (C : Bool) (F Sg : String)
    (r : EvaluationResult)
    (h : parseEvaluationResponse
        (.obj [("score", .int S), ("is_correct", .bool C),
               ("feedback_text", .str F), ("suggested_difficulty", .str Sg)]) = .ok r) :
    r.score = S ∧ r.is_correct = C ∧ r.feedback_text = pyStrip F := by
  simp only [parseEvaluationResponse, requiredFields, jsonFind] at h
  simp at h
  split at h
  · cases h
  · split at h
    · cases h
    · split at h
      · cases h
        exact ⟨rfl, rfl, rfl⟩
      · cases h

/-- C4 counterexample: the merged score is not `round(scoreA*0.6 + scoreB*0.4)`
with exact rounding.  At parsed scores A = 1, B = 0 the exact value is 0.6 and
exact rounding gives 1, but `int()` truncates the float `1*0.6 + 0*0.4`
(≈ 0.5999999999999999778) to 0, so the merged payload carries score 0. -/
theorem mergedScore_not_rounded_counterexample :
    combineEvaluations (evalDoc 1 true "good work here" "Medium")
        (evalDoc 0 true "fine" "Medium") =
      .obj [("score", .int 0), ("is_correct", .bool true),
            ("feedback_text", .str "good work here"),
            ("suggested_difficulty", .str "Medium")] ∧
    claimMergedScore 1 0 = 1 ∧
    (0 : Int) ≠ 1 := by
  refine ⟨by decide, ?_, by decide⟩
  unfold claimMergedScore
  norm_num
  rw [round_eq]
  norm_num

/-- C4 amended: for two successfully parsed provider evaluations the merged
payload equals the reference definition with truncation in place of rounding —
score is `int(scoreA*0.6 + scoreB*0.4)` under exact binary64 arithmetic
(truncation toward zero, not exact rounding); `is_correct` is the conjunction;
`feedback_text` is the longer feedback when its character length strictly
exceeds 1.5× the other's, else the primary provider's; and
`suggested_difficulty` is the primary provider's. -/
theorem combineEvaluations_matches_amended_claim (a b : Int) (gc mc : Bool)
    (gf mf gs ms : String) :
    combineEvaluations (evalDoc a gc gf gs) (evalDoc b mc mf ms) =
      .obj [("score", .int (combinedScoreFloat a b)),
            ("is_correct", .bool (gc && mc)),
            ("feedback_text", .str
              (if 2 * gf.data.length > 3 * mf.data.length then gf
               else if 2 * mf.data.length > 3 * gf.data.length then mf
               else gf)),
            ("suggested_difficulty", .str gs)] := by
  rw [combineEvaluations_evalDoc]
  rfl

/-- C3 counterexample: the system constructs an `EvaluationResult` violating
`is_correct == (score >= 80)`.  With parsed provider evaluations
A = (90, correct) and B = (70, incorrect), the dual-provider merge yields
score 82 with `is_correct = false`, and the evaluation pipeline returns it. -/
theorem isCorrect_invariant_counterexample :
    evaluateAnswer (evalDoc 90 true "solid and thorough answer overall" "Medium")
        (evalDoc 70 false "needs more depth" "Medium") =
      .ok { score := 82, is_correct := false
            feedback_text := "solid and thorough answer overall"
            suggested_difficulty := .medium } ∧
    ¬ (((false : Bool) = true) ↔ (82 : Int) ≥ 80) := by
  exact ⟨by decide, by decide⟩

/-- C3 amended: the invariant `is_correct == (score >= 80)` is not maintained
by the system.  A merged evaluation carries `is_correct = is_correctA AND
is_correctB` and the truncated weighted score, two independent quantities
(violated at score 82 with `is_correct = false`, see the counterexample); and
`update_session_performance` copies the given score and correctness flag into
the appended `PerformanceRecord` verbatim, without rederiving the flag from
the score. -/
theorem isCorrect_invariant_amended (a b : Int) (gc mc : Bool)
    (gf mf gs ms : String) (r : EvaluationResult)
    (h : evaluateAnswer (evalDoc a gc gf gs) (evalDoc b mc mf ms) = .ok r) :
    r.score = combinedScoreFloat a b ∧ r.is_correct = (gc && mc) ∧
    ∀ (store : Store) (sid qid : String) (session : Session) (now : Nat),
      storeFind store sid = some session → 0 ≤ r.score → r.score ≤ 100 →
      ∃ s2,
        storeFind (updateSessionPerformance store sid qid r.score r.is_correct now).2
            sid = some s2 ∧
        s2.performance_history =
          session.performance_history ++
            [{ question_id := qid, score := r.score, is_correct := r.is_correct
               difficulty := session.current_difficulty, timestamp := now }] := by
  rw [evaluateAnswer, combineEvaluations_evalDoc] at h
  obtain ⟨hs, hc, _⟩ := parse_wellFormed_ok_fields _ _ _ _ _ h
  refine ⟨hs, hc, ?_⟩
  intro store sid qid session now hfound hlo hhi
  have hbound : ¬ (r.score < 0 ∨ 100 < r.score) := by omega
  refine ⟨{ session with
      performance_history := session.performance_history ++
        [{ question_id := qid, score := r.score, is_correct := r.is_correct
           difficulty := session.current_difficulty, timestamp := now }]
      current_difficulty := calculateNewDifficulty { session with
        performance_history := session.performance_history ++
          [{ question_id := qid, score := r.score, is_correct := r.is_correct
             difficulty := session.current_difficulty, timestamp := now }] }
      updated_at := now }, ?_, rfl⟩
  simp [updateSessionPerformance, hfound, hbound, storeFind_storeInsert_self]

/-- Evaluates the amended C3 at the counterexample input: the merged result
(82, incorrect) and the record appended for it by the session store. -/
theorem isCorrect_invariant_amended_witness :
    (({ score := 82, is_correct := false
        feedback_text := "solid and thorough answer overall"
        suggested_difficulty := .medium } : EvaluationResult).score =
      combinedScoreFloat 90 70) ∧
    (({ score := 82, is_correct := false
        feedback_text := "solid and thorough answer overall"
        suggested_difficulty := .medium } : EvaluationResult).is_correct =
      (true && false)) ∧
    ∀ (store : Store) (sid qid : String) (session : Session) (now : Nat),
      storeFind store sid = some session →
      0 ≤ (({ score := 82, is_correct := false
              feedback_text := "solid and thorough answer overall"
              suggested_difficulty := .medium } : EvaluationResult)).score →
      (({ score := 82, is_correct := false
          feedback_text := "solid and thorough answer overall"
          suggested_difficulty := .medium } : EvaluationResult)).score ≤ 100 →
      ∃ s2,
        storeFind (updateSessionPerformance store sid qid
            (82 : Int) false now).2 sid = some s2 ∧
        s2.performance_history =
          session.performance_history ++
            [{ question_id := qid, score := (82 : Int), is_correct := false
               difficulty := session.current_difficulty, timestamp := now }] :=
  isCorrect_invariant_amended 90 70 true false
    "solid and thorough answer overall" "needs more depth" "Medium" "Medium"
    { score := 82, is_correct := false
      feedback_text := "solid and thorough answer overall"
      suggested_difficulty := .medium } (by decide)

/-- C8 counterexample: a provider evaluation missing every required field is
not treated as that provider's failure before the merge.  Merged with a
well-formed primary evaluation (90, correct), the empty object contributes
its defaults: the result is score 54 (= `int(90*0.6 + 0*0.4)`) and
`is_correct = false`, whereas treating it as a failure (second conjunct, the
provider outcome `absent`) returns the primary evaluation unchanged with
score 90. -/
theorem mergeSkipsValidation_counterexample :
    evaluateAnswer (evalDoc 90 true "a decent and careful answer" "Medium")
        (.obj []) =
      .ok { score := 54, is_correct := false
            feedback_text := "a decent and careful answer"
            suggested_difficulty := .medium } ∧
    evaluateAnswer (evalDoc 90 true "a decent and careful answer" "Medium")
        .absent =
      .ok { score := 90, is_correct := true
            feedback_text := "a decent and careful answer"
            suggested_difficulty := .medium } ∧
    (54 : Int) ≠ 90 := by
  exact ⟨by decide, by decide, by decide⟩

/-- C8 amended: the per-field validation runs once, on the final (merged or
sole) payload inside `_parse_evaluation_response`; within the merge a
provider response is not individually validated — fields absent from it are
defaulted (`score` → 0, `is_correct` → False, `feedback_text` → `""`) and
still shape the merged payload, and a final payload missing a required field
is rejected with the list of missing fields. -/
theorem evaluationValidation_after_merge (a : Int) (gc : Bool) (gf gs : String)
    (mfields pfields : List (String × JsonVal))
    (h1 : jsonFind mfields "score" = none)
    (h2 : jsonFind mfields "is_correct" = none)
    (h3 : jsonFind mfields "feedback_text" = none)
    (h4 : jsonFind pfields "score" = none) :
    combineEvaluations (evalDoc a gc gf gs) (.obj mfields) =
      .obj [("score", .int (combinedScoreFloat a 0)),
            ("is_correct", .bool false),
            ("feedback_text", .str (mergeFeedback gf "")),
            ("suggested_difficulty", .str gs)] ∧
    parseEvaluationResponse (.obj pfields) =
      .error (.missingFields
        (requiredFields.filter (fun f => (jsonFind pfields f).isNone))) := by
  constructor
  · cases gc <;>
      simp [combineEvaluations, evalDoc, jsonGet, pyNum, pyAnd, pyTruthy,
        jsonGet_of_find_none _ _ _ h1, jsonGet_of_find_none _ _ _ h2,
        jsonGet_of_find_none _ _ _ h3]
  · have hmem : "score" ∈ requiredFields.filter (fun f => (jsonFind pfields f).isNone) := by
      rw [List.mem_filter]
      exact ⟨by decide, by simp [h4]⟩
    have hne : requiredFields.filter (fun f => (jsonFind pfields f).isNone) ≠ [] := by
      intro he
      rw [he] at hmem
      cases hmem
    simp [parseEvaluationResponse, hne]

/-- Evaluates the amended C8 at a concrete input: merging with the empty
object `{}` and parsing the both-failed sentinel payload. -/
theorem evaluationValidation_after_merge_witness :
    combineEvaluations (evalDoc 90 true "a decent and careful answer" "Medium")
        (.obj []) =
      .obj [("score", .int (combinedScoreFloat 90 0)),
            ("is_correct", .bool false),
            ("feedback_text", .str (mergeFeedback "a decent and careful answer" "")),
            ("suggested_difficulty", .str "Medium")] ∧
    parseEvaluationResponse (.obj [("error", .str "No evaluation generated")]) =
      .error (.missingFields
        (requiredFields.filter
          (fun f => (jsonFind [("error", .str "No evaluation generated")] f).isNone))) :=
  evaluationValidation_after_merge 90 true "a decent and careful answer" "Medium"
    [] [("error", .str "No evaluation generated")]
    (by decide) (by decide) (by decide) (by decide)

/-- C2: when both providers fail, the evaluation path raises a typed error as
claimed — the sentinel `{"error": ...}` payload fails the required-field
check — but the question path does not: `_select_best_question` returns the
sentinel text `"Error: No question generated"`, which survives the service's
emptiness check and is wrapped into a `Question`, contradicting the service's
own contract of raising `QuestionGenerationError` when generation fails. -/
theorem bothProvidersFail_behavior :
    generateQuestion "qid-1" "math" .medium none none =
      .ok { question_id := "qid-1", question_text := "Error: No question generated"
            difficulty := .medium, topic := "math" } ∧
    evaluateAnswer .absent .absent =
      .error (.missingFields requiredFields) := by
  exact ⟨by decide, by decide⟩

theorem chatCompletionGo_attempts_le (script : Nat → AttemptOutcome) (rd : ℚ) :
    ∀ (remaining attempt : Nat) (ds : List ℚ),
      (chatCompletionGo script rd remaining attempt ds).attempts ≤ attempt + remaining := by
  intro remaining
  induction remaining with
  | zero => intro attempt ds; simp [chatCompletionGo]
  | succ r ih =>
    intro attempt ds
    cases h : script attempt with
    | success c => simp [chatCompletionGo, h]
    | rateLimitError =>
      simp only [chatCompletionGo, h]
      split
      · exact le_trans (ih (attempt + 1) _) (by omega)
      · simp
    | apiTimeoutError =>
      simp only [chatCompletionGo, h]
      split
      · exact le_trans (ih (attempt + 1) _) (by omega)
      · simp
    | apiConnectionError =>
      simp only [chatCompletionGo, h]
      split
      · exact le_trans (ih (attempt + 1) _) (by omega)
      · simp
    | apiError st =>
      cases st with
      | some sc =>
        simp only [chatCompletionGo, h]
        split
        · simp
        · split
          · exact le_trans (ih (attempt + 1) _) (by omega)
          · simp
      | none =>
        simp only [chatCompletionGo, h]
        split
        · exact le_trans (ih (attempt + 1) _) (by omega)
        · simp
    | unexpectedError m => simp [chatCompletionGo, h]

theorem chatCompletionGo_retry_step (script : Nat → AttemptOutcome) (rd : ℚ)
    (r attempt : Nat) (ds : List ℚ) (hr : 0 < r)
    (h : retryableOutcome (script attempt) = true) :
    chatCompletionGo script rd (r + 1) attempt ds =
      chatCompletionGo script rd r (attempt + 1) (ds ++ [rd * 2 ^ attempt]) := by
  cases ho : script attempt with
  | success c => rw [ho] at h; simp [retryableOutcome] at h
  | rateLimitError => simp [chatCompletionGo, ho, hr]
  | apiTimeoutError => simp [chatCompletionGo, ho, hr]
  | apiConnectionError => simp [chatCompletionGo, ho, hr]
  | apiError st =>
    cases st with
    | some sc =>
      rw [ho] at h
      simp [retryableOutcome] at h
      have hcond : ¬ (400 ≤ sc ∧ sc < 500) := by omega
      simp [chatCompletionGo, ho, hr, hcond]
    | none => simp [chatCompletionGo, ho, hr]
  | unexpectedError m => rw [ho] at h; simp [retryableOutcome] at h

theorem chatCompletionGo_last_retryable (script : Nat → AttemptOutcome) (rd : ℚ)
    (attempt : Nat) (ds : List ℚ)
    (h : retryableOutcome (script attempt) = true) :
    ∃ msg, chatCompletionGo script rd 1 attempt ds =
      { result := .error { operation := "chat_completion", message := msg }
        delays := ds, attempts := attempt + 1 } := by
  cases ho : script attempt with
  | success c => rw [ho] at h; simp [retryableOutcome] at h
  | rateLimitError =>
    exact ⟨"Rate limit exceeded after all retries", by simp [chatCompletionGo, ho]⟩
  | apiTimeoutError =>
    exact ⟨"Request timeout after all retries", by simp [chatCompletionGo, ho]⟩
  | apiConnectionError =>
    exact ⟨"Connection error after all retries", by simp [chatCompletionGo, ho]⟩
  | apiError st =>
    cases st with
    | some sc =>
      rw [ho] at h
      simp [retryableOutcome] at h
      have hcond : ¬ (400 ≤ sc ∧ sc < 500) := by omega
      exact ⟨"API error after all retries", by simp [chatCompletionGo, ho, hcond]⟩
    | none =>
      exact ⟨"API error after all retries", by simp [chatCompletionGo, ho]⟩
  | unexpectedError m => rw [ho] at h; simp [retryableOutcome] at h

/-- C6 counterexample: the retry policy is not identical across the two
provider invokers, and the Gemini invoker does not retry `RateLimited` at
all.  Against the same backend script — attempt 0 rate-limited, attempt 1
successful — the OpenAI invoker retries once and succeeds with two attempts,
while the Gemini invoker makes a single attempt and raises a bare error
carrying no operation name. -/
theorem retryPolicy_not_uniform_counterexample :
    (openaiChatCompletion 1
        (fun i => if i = 0 then .rateLimitError else .success "ok")).result =
      .ok "ok" ∧
    (openaiChatCompletion 1
        (fun i => if i = 0 then .rateLimitError else .success "ok")).attempts = 2 ∧
    (geminiChatCompletion
        (fun i => if i = 0 then .rateLimitError else .success "ok")).result =
      .error { message := "Gemini API error" } ∧
    (geminiChatCompletion
        (fun i => if i = 0 then .rateLimitError else .success "ok")).attempts = 1 :=
  ⟨rfl, rfl, rfl, rfl⟩

/-- C6 amended: the OpenAI invoker implements the claimed policy — at most 3
attempts; `RateLimited`, `Timeout`, `ConnectionFailed` and non-4xx API
errors retried with delay `retry_delay * 2^attempt_index` between attempts;
4xx client errors and unexpected exceptions failing immediately on the first
attempt; exhaustion raising a typed error naming the operation.  The Gemini
invoker, however, performs exactly one attempt with no delays and wraps
every failure, transient or not, in a bare untyped error, so the policy is
not provider-identical. -/
theorem invoker_policies_amended (script : Nat → AttemptOutcome) (retryDelay : ℚ) :
    (openaiChatCompletion retryDelay script).attempts ≤ 3 ∧
    (geminiChatCompletion script).attempts = 1 ∧
    (geminiChatCompletion script).delays = [] ∧
    (∀ msg, script 0 = .unexpectedError msg →
      openaiChatCompletion retryDelay script =
        { result := .error { operation := "chat_completion"
                             message := "Unexpected error: " ++ msg }
          delays := [], attempts := 1 }) ∧
    (∀ sc, script 0 = .apiError (some sc) → 400 ≤ sc → sc < 500 →
      openaiChatCompletion retryDelay script =
        { result := .error { operation := "chat_completion"
                             message := "API client error" }
          delays := [], attempts := 1 }) ∧
    (retryableOutcome (script 0) = true →
      ∀ content, script 1 = .success content →
        openaiChatCompletion retryDelay script =
          { result := .ok content, delays := [retryDelay * 2 ^ 0], attempts := 2 }) ∧
    (retryableOutcome (script 0) = true → retryableOutcome (script 1) = true →
      retryableOutcome (script 2) = true →
      (openaiChatCompletion retryDelay script).attempts = 3 ∧
      (openaiChatCompletion retryDelay script).delays =
        [retryDelay * 2 ^ 0, retryDelay * 2 ^ 1] ∧
      ∃ e, (openaiChatCompletion retryDelay script).result = .error e ∧
        e.operation = "chat_completion") ∧
    (retryableOutcome (script 0) = true →
      (geminiChatCompletion script).result = .error { message := "Gemini API error" }) := by
  refine ⟨chatCompletionGo_attempts_le script retryDelay maxRetries 0 [],
    ?_, ?_, ?_, ?_, ?_, ?_, ?_⟩
  · cases h : script 0 <;> simp [geminiChatCompletion, h]
  · cases h : script 0 <;> simp [geminiChatCompletion, h]
  · intro msg h
    simp [openaiChatCompletion, maxRetries, chatCompletionGo, h]
  · intro sc h h4 h5
    simp [openaiChatCompletion, maxRetries, chatCompletionGo, h, h4, h5]
  · intro h0 content h1
    rw [openaiChatCompletion,
      show maxRetries = 2 + 1 from rfl,
      chatCompletionGo_retry_step script retryDelay 2 0 [] (by omega) h0]
    simp [chatCompletionGo, h1]
  · intro h0 h1 h2
    rw [openaiChatCompletion,
      show maxRetries = 2 + 1 from rfl,
      chatCompletionGo_retry_step script retryDelay 2 0 [] (by omega) h0,
      show (2 : Nat) = 1 + 1 from rfl,
      chatCompletionGo_retry_step script retryDelay 1 1 _ (by omega) h1]
    obtain ⟨msg, hmsg⟩ :=
      chatCompletionGo_last_retryable script retryDelay 2
        (([] ++ [retryDelay * 2 ^ 0]) ++ [retryDelay * 2 ^ 1]) h2
    rw [hmsg]
    refine ⟨rfl, by simp, ⟨_, rfl, rfl⟩⟩
  · intro h0
    cases ho : script 0 with
    | success c => rw [ho] at h0; simp [retryableOutcome] at h0
    | rateLimitError => simp [geminiChatCompletion, ho]
    | apiTimeoutError => simp [geminiChatCompletion, ho]
    | apiConnectionError => simp [geminiChatCompletion, ho]
    | apiError st => simp [geminiChatCompletion, ho]
    | unexpectedError m => rw [ho] at h0; simp [retryableOutcome] at h0

/-- Evaluates the amended C6 across concrete scripts: exhaustion after three
rate-limited attempts with the geometric backoff, immediate failure on a
4xx client error, one retry then success, and Gemini's single attempt. -/
theorem invoker_policies_amended_witness :
    ((openaiChatCompletion 1 (fun _ => .rateLimitError)).attempts = 3 ∧
      (openaiChatCompletion 1 (fun _ => .rateLimitError)).delays =
        [(1 : ℚ) * 2 ^ 0, (1 : ℚ) * 2 ^ 1] ∧
      ∃ e, (openaiChatCompletion 1 (fun _ => .rateLimitError)).result = .error e ∧
        e.operation = "chat_completion") ∧
    (openaiChatCompletion 1 (fun _ => .apiError (some 404)) =
      { result := .error { operation := "chat_completion"
                           message := "API client error" }
        delays := [], attempts := 1 }) ∧
    (openaiChatCompletion 1
        (fun i => if i = 0 then .apiTimeoutError else .success "fine") =
      { result := .ok "fine", delays := [(1 : ℚ) * 2 ^ 0], attempts := 2 }) ∧
    (geminiChatCompletion (fun _ => .rateLimitError)).attempts = 1 ∧
    (geminiChatCompletion (fun _ => .rateLimitError)).result =
      .error { message := "Gemini API error" } := by
  refine ⟨?_, ?_, ?_, ?_, ?_⟩
  · exact (invoker_policies_amended (fun _ => .rateLimitError) 1).2.2.2.2.2.2.1
      rfl rfl rfl
  · exact (invoker_policies_amended (fun _ => .apiError (some 404)) 1).2.2.2.2.1
      404 rfl (by omega) (by omega)
  · exact (invoker_policies_amended
        (fun i => if i = 0 then .apiTimeoutError else .success "fine") 1).2.2.2.2.2.1
      rfl "fine" rfl
  · exact (invoker_policies_amended (fun _ => .rateLimitError) 1).2.1
  · exact (invoker_policies_amended (fun _ => .rateLimitError) 1).2.2.2.2.2.2.2 rfl

end AIAssessment
